import Mathlib

/-!
Verification of the minutes-studio server routes and client export helpers.

The development shallowly embeds the two API route handlers
(`src/app/api/minutes/route.ts` and `src/app/api/upload/sign/route.ts`)
and the client-side `escapeHtml` helper as executable Lean functions.

Modelling conventions:
* JS strings are Lean `String`s (length counted in characters).
* A JSON value is the inductive `Json`; a JS object literal whose field set
  matters is an association list `List (String × Json)`.
* External library calls (OpenAI SDK transcription/chat requests, S3 reads,
  `JSON.parse`, the regex-based HTML stripping built on the JS regex engine)
  are uninterpreted oracle functions collected in `ExtCalls`; theorems quantify
  over them.  Every OpenAI invocation is recorded in an `AICall` log so that
  "no AI capability is invoked" claims are expressible.
* Environment variables are `Option String` (a missing or empty value is
  falsy, as in JS).
* The JS `||` operator on strings is `jsOr`; `??`/truthiness on JSON values
  are `nullishToEmpty`/`jsTruthy`/`jvOr`.
* The handler `POST` of the minutes route contains (line 199) the expression
  `summarize(openai, transcript, styleGuidelines)` in which `transcript` is
  a free identifier: no enclosing scope declares it.  Identifier resolution
  is modelled by `resolveIdent` over the handler's string-valued bindings
  (`postScope`); resolution failure is the thrown `ReferenceError`, which
  the handler's `try/catch` converts into a 500 response.
-/

set_option linter.unusedVariables false

/-- A JSON value (the result of `JSON.parse` or a response body). -/
inductive Json where
  | null
  | bool (b : Bool)
  | num (n : Int)
  | str (s : String)
  | arr (elems : List Json)
  | obj (fields : List (String × Json))

/-- Result of a JS property access: either `undefined` or a value. -/
inductive JsVal where
  | undef
  | val (j : Json)

/-- JS truthiness of a JSON value. -/
def jsTruthy : Json → Bool
  | .null => false
  | .bool b => b
  | .num n => n != 0
  | .str s => s != ""
  | .arr _ => true
  | .obj _ => true

/-- JS `a || b` for strings: `b` when `a` is falsy (empty), else `a`. -/
def jsOr (s d : String) : String := if s = "" then d else s

/-- JS `v ?? ""`: `undefined` and `null` become the empty string. -/
def nullishToEmpty (v : JsVal) : Json :=
  match v with
  | .undef => Json.str ""
  | .val .null => Json.str ""
  | .val j => j

/-- JS `v || d` on a possibly-undefined JSON value. -/
def jvOr (v : JsVal) (d : Json) : Json :=
  match v with
  | .undef => d
  | .val j => if jsTruthy j then j else d

/-- Property access `o.k` on an object modelled as an association list. -/
def jsField (o : List (String × Json)) (k : String) : JsVal :=
  match o.lookup k with
  | some j => JsVal.val j
  | none => JsVal.undef

/-- Property access `j.k` on an arbitrary JSON value: `none` models the
`TypeError` thrown on a `null` receiver; primitives yield `undefined`. -/
def jsProp (j : Json) (k : String) : Option JsVal :=
  match j with
  | .null => none
  | .obj fields =>
      some (match fields.lookup k with
            | some v => JsVal.val v
            | none => JsVal.undef)
  | _ => some JsVal.undef

/-- `String.prototype.includes` via the infix relation on character lists. -/
def includes (s sub : String) : Bool := decide (sub.data <:+: s.data)

/-- JS `Array.prototype.join(sep)`. -/
def joinSep (sep : String) : List String → String
  | [] => ""
  | [x] => x
  | x :: y :: xs => x ++ sep ++ joinSep sep (y :: xs)

/-- JS `String.prototype.split` with a one-character separator. -/
def splitOnChar (sep : Char) : List Char → List (List Char)
  | [] => [[]]
  | c :: cs =>
      match splitOnChar sep cs with
      | [] => [[]]
      | h :: t => if c = sep then [] :: h :: t else (c :: h) :: t

/-- An HTTP response whose JSON body is significant only through its fields. -/
structure HttpResponse where
  status : Nat
  body : List (String × Json)

/-- An uploaded audio `File` (multipart field `audio`, or a fake file built
from an S3 object). -/
structure AudioFile where
  name : String
  content : List Nat
  type : String

/-- An uploaded style-exemplar `File` (multipart field `style`); `text` is
its UTF-8 decoding and `docxExtract` the outcome of `mammoth.extractRawText`
(`none` models an extraction failure, swallowed by the route). -/
structure StyleFile where
  name : String
  text : String
  docxExtract : Option String

/-- Process environment of the minutes route. -/
structure MinutesEnv where
  openaiApiKey : Option String
  awsRegion : Option String
  awsBucket : Option String
  awsAccessKeyId : Option String
  awsSecretAccessKey : Option String

/-- Oracles for the external calls the minutes route awaits. -/
structure ExtCalls where
  primaryT : AudioFile → Except String String
  fallbackT : AudioFile → Except String String
  s3Read : String → List Nat
  htmlStrip : String → String
  styleContent : Option String
  minutesContent : Option String
  jsonParse : String → Option Json

/-- One recorded OpenAI invocation. -/
inductive AICall where
  | transcribe (model : String) (file : String)
  | chatStyle
  | chatMinutes

/-- A request to `POST /minutes`: the `content-type` header, the parsed
multipart fields (`audio`/`style` files and `s3Key` strings), and the JSON
body's `s3Keys` (`none` when absent, for `body?.s3Keys || []`). -/
structure MRequest where
  contentTypeHeader : Option String
  formAudio : List AudioFile
  formStyle : List StyleFile
  formS3Keys : List String
  jsonS3Keys : Option (List String)

/-- `getOpenAI` (route.ts 15-19): `null` when the API key is falsy. -/
def getOpenAI (env : MinutesEnv) : Option Unit :=
  if env.openaiApiKey.getD "" = "" then none else some ()

/-- One file of the `transcribeAll` loop (route.ts 85-106): primary model,
`whisper-1` fallback on failure, empty string on double failure; the second
component records the attempted OpenAI transcription calls. -/
def transcribeOne (ext : ExtCalls) (f : AudioFile) : String × List AICall :=
  match ext.primaryT f with
  | .ok t => (t, [AICall.transcribe "gpt-4o-transcribe" f.name])
  | .error _ =>
      match ext.fallbackT f with
      | .ok t => (t, [AICall.transcribe "gpt-4o-transcribe" f.name,
                      AICall.transcribe "whisper-1" f.name])
      | .error _ => ("", [AICall.transcribe "gpt-4o-transcribe" f.name,
                          AICall.transcribe "whisper-1" f.name])

/-- The `pieces` accumulation of `transcribeAll`, in input order. -/
def transcribeLoop (ext : ExtCalls) : List AudioFile → List String × List AICall
  | [] => ([], [])
  | f :: fs =>
      let p := transcribeOne ext f
      let rest := transcribeLoop ext fs
      (p.1 :: rest.1, p.2 ++ rest.2)

/-- `transcribeAll` (route.ts 78-108): empty input gives `""`; without an
API key a fixed mock transcript; otherwise the non-empty per-file results
joined with a blank line (`pieces.filter(Boolean).join("\n\n")`). -/
def transcribeAll (openai : Option Unit) (ext : ExtCalls) (audioFiles : List AudioFile) :
    String × List AICall :=
  if audioFiles.isEmpty then ("", [])
  else
    match openai with
    | none => ("【モック転記】AIキー未設定のためダミーの議事録本文です。", [])
    | some _ =>
        let r := transcribeLoop ext audioFiles
        (joinSep "\n\n" (r.1.filter (fun p => p != "")), r.2)

/-- `readFromS3Key` (route.ts 47-59): `null` when any of the four storage
environment values is falsy, otherwise the object's bytes. -/
def readFromS3Key (env : MinutesEnv) (ext : ExtCalls) (key : String) : Option (List Nat) :=
  if env.awsRegion.getD "" = "" ∨ env.awsBucket.getD "" = "" ∨
     env.awsAccessKeyId.getD "" = "" ∨ env.awsSecretAccessKey.getD "" = "" then none
  else some (ext.s3Read key)

/-- `new File([buf], key.split("/").pop() || "audio.mp3", {type: "audio/mpeg"})`
(route.ts 191). -/
def mkFakeFile (key : String) (buf : List Nat) : AudioFile :=
  { name := jsOr (String.mk ((splitOnChar '/' key.data).getLastD [])) "audio.mp3",
    content := buf,
    type := "audio/mpeg" }

/-- The `for (const key of s3AudioKeys)` loop (route.ts 188-193): each
readable key's transcription is appended as `"\n\n" + text`; unreadable keys
are skipped (`if (!buf) continue`). -/
def s3KeyLoop (openai : Option Unit) (env : MinutesEnv) (ext : ExtCalls) :
    List String → String → List AICall → String × List AICall
  | [], acc, log => (acc, log)
  | k :: ks, acc, log =>
      match readFromS3Key env ext k with
      | none => s3KeyLoop openai env ext ks acc log
      | some buf =>
          let step := transcribeAll openai ext [mkFakeFile k buf]
          s3KeyLoop openai env ext ks (acc ++ "\n\n" ++ step.1) (log ++ step.2)

/-- Lines 185-194: `transcriptFromUploads` after the direct-file transcription
and the storage-key loop (the loop is guarded by `if (s3AudioKeys.length)`). -/
def assembleTranscript (openai : Option Unit) (env : MinutesEnv) (ext : ExtCalls)
    (audioFiles : List AudioFile) (s3AudioKeys : List String) : String × List AICall :=
  let base := transcribeAll openai ext audioFiles
  if s3AudioKeys.isEmpty then base
  else s3KeyLoop openai env ext s3AudioKeys base.1 base.2

/-- Per-file dispatch of `readStyleFiles` (route.ts 21-45); the regex-based
markup stripping is the uninterpreted `htmlStrip` oracle. -/
def readStyleChunks (htmlStrip : String → String) : List StyleFile → List String
  | [] => []
  | f :: fs =>
      let nameL := f.name.toLower
      let rest := readStyleChunks htmlStrip fs
      if nameL.endsWith ".docx" then
        match f.docxExtract with
        | some v => if v = "" then rest else v :: rest
        | none => rest
      else if nameL.endsWith ".txt" || nameL.endsWith ".md" then
        f.text :: rest
      else if nameL.endsWith ".html" || nameL.endsWith ".htm" then
        htmlStrip f.text :: rest
      else rest

/-- `readStyleFiles` (route.ts 21-45): extracted chunks joined by blank lines. -/
def readStyleFiles (htmlStrip : String → String) (styleFiles : List StyleFile) : String :=
  joinSep "\n\n" (readStyleChunks htmlStrip styleFiles)

/-- `buildStyleGuidelines` (route.ts 61-76): empty for a falsy or short
corpus, empty without an API key, otherwise the chat response's content
(`?? ""`); the call is recorded. -/
def buildStyleGuidelines (openai : Option Unit) (chatContent : Option String)
    (corpus : String) : String × List AICall :=
  if corpus = "" ∨ corpus.length < 200 then ("", [])
  else
    match openai with
    | none => ("", [])
    | some _ => (chatContent.getD "", [AICall.chatStyle])

/-- `summarize` (route.ts 110-164).  Without an API key: the mock result
`{transcript: transcript || placeholder, summary: mock}` — a two-field
object.  With a key: `content = resp.choices[0]?.message?.content ?? "{}"`
is parsed; a `JSON.parse` failure or a `TypeError` on `parsed.summary`
is caught and yields `{transcript, summary: "要約の解析に失敗しました。"}`;
on success the object is `{transcript, summary: parsed.summary ?? ""}`.
No branch produces a `minutes` field. -/
def summarize (openai : Option Unit) (ext : ExtCalls) (transcript styleGuidelines : String) :
    List (String × Json) × List AICall :=
  match openai with
  | none =>
      ([("transcript", Json.str (jsOr transcript "【モック転記】AIキー未設定のためダミー本文。")),
        ("summary", Json.str "【モック要約】主要論点と次回アクションを整理しました。")], [])
  | some _ =>
      let content := ext.minutesContent.getD "{}"
      let result :=
        match ext.jsonParse content with
        | none =>
            [("transcript", Json.str transcript),
             ("summary", Json.str "要約の解析に失敗しました。")]
        | some parsed =>
            match jsProp parsed "summary" with
            | none =>
                [("transcript", Json.str transcript),
                 ("summary", Json.str "要約の解析に失敗しました。")]
            | some v =>
                [("transcript", Json.str transcript),
                 ("summary", nullishToEmpty v)]
      (result, [AICall.chatMinutes])

/-- The 200 response body (route.ts 202-207):
`{transcript: result.transcript || transcriptFromUploads, summary:
result.summary, styleGuidelines, usedAI: Boolean(openai)}`; a field whose
value is `undefined` is dropped by `JSON.stringify`. -/
def successBody (result : List (String × Json)) (transcriptFromUploads styleGuidelines : String)
    (openai : Option Unit) : List (String × Json) :=
  [("transcript", jvOr (jsField result "transcript") (Json.str transcriptFromUploads))]
  ++ (match jsField result "summary" with
      | .undef => []
      | .val j => [("summary", j)])
  ++ [("styleGuidelines", Json.str styleGuidelines),
      ("usedAI", Json.bool openai.isSome)]

/-- JS identifier resolution against a scope of string-valued bindings:
an unbound name throws `ReferenceError: <name> is not defined`. -/
def resolveIdent (scope : List (String × String)) (name : String) : Except String String :=
  match scope.lookup name with
  | some v => Except.ok v
  | none => Except.error (name ++ " is not defined")

/-- The string-valued bindings in scope at route.ts line 199.  The handler
declares `contentType`, `audioFiles`, `styleFiles`, `s3AudioKeys`, `openai`,
`transcriptFromUploads`, `styleCorpus`, `styleGuidelines` (plus loop-local
`key`, `buf`, `fakeFile` already out of scope); module scope declares only
functions, types and config constants.  No binding of any type is named
`transcript`. -/
def postScope (contentType transcriptFromUploads styleCorpus styleGuidelines : String) :
    List (String × String) :=
  [("contentType", contentType),
   ("transcriptFromUploads", transcriptFromUploads),
   ("styleCorpus", styleCorpus),
   ("styleGuidelines", styleGuidelines)]

/-- Input-mode dispatch of the handler (route.ts 168-181): multipart bodies
supply `audio`/`style`/`s3Key` form fields; JSON bodies supply
`body?.s3Keys || []`; anything else supplies nothing. -/
def ingest (req : MRequest) : List AudioFile × List StyleFile × List String :=
  let contentType := req.contentTypeHeader.getD ""
  if includes contentType "multipart/form-data" then
    (req.formAudio, req.formStyle, req.formS3Keys)
  else if includes contentType "application/json" then
    ([], [], req.jsonS3Keys.getD [])
  else ([], [], [])

/-- The `POST /minutes` handler (route.ts 166-216).  The pipeline runs
ingest → transcription (direct files, then storage keys) → style corpus →
style guidelines, and then evaluates
`summarize(openai, transcript, styleGuidelines)` whose middle argument is
an unresolved identifier; the `try/catch` turns the `ReferenceError` into
`{status: 500, body: {error: e.message}}`.  The second component is the
log of OpenAI calls made. -/
def postMinutes (env : MinutesEnv) (ext : ExtCalls) (req : MRequest) :
    HttpResponse × List AICall :=
  let contentType := req.contentTypeHeader.getD ""
  let ingested := ingest req
  let audioFiles := ingested.1
  let styleFiles := ingested.2.1
  let s3AudioKeys := ingested.2.2
  let openai := getOpenAI env
  let tr := assembleTranscript openai env ext audioFiles s3AudioKeys
  let transcriptFromUploads := tr.1
  let styleCorpus := readStyleFiles ext.htmlStrip styleFiles
  let sg := buildStyleGuidelines openai ext.styleContent styleCorpus
  let styleGuidelines := sg.1
  let aiLog := tr.2 ++ sg.2
  match resolveIdent (postScope contentType transcriptFromUploads styleCorpus styleGuidelines)
      "transcript" with
  | .error e =>
      ({ status := 500, body := [("error", Json.str (jsOr e "Unknown error"))] }, aiLog)
  | .ok transcriptVal =>
      let sm := summarize openai ext transcriptVal styleGuidelines
      ({ status := 200,
         body := successBody sm.1 transcriptFromUploads styleGuidelines openai },
       aiLog ++ sm.2)

/-- Process environment of the upload-sign route. -/
structure SignEnv where
  awsRegion : Option String
  awsBucket : Option String
  awsAccessKeyId : Option String
  awsSecretAccessKey : Option String

/-- `getS3` (sign/route.ts 8-16): `null` when any of the four values is
falsy, otherwise the configured bucket. -/
def getS3 (env : SignEnv) : Option String :=
  if env.awsRegion.getD "" = "" ∨ env.awsBucket.getD "" = "" ∨
     env.awsAccessKeyId.getD "" = "" ∨ env.awsSecretAccessKey.getD "" = "" then none
  else some (env.awsBucket.getD "")

/-- The parsed JSON body `{filename, contentType}` of `POST /upload-sign`. -/
structure SignBody where
  filename : Option String
  contentType : Option String

/-- The `PutObjectCommand` handed to `getSignedUrl`, with its expiry. -/
structure SignedPut where
  bucket : String
  key : String
  contentType : String
  expiresIn : Nat

/-- `filename.split(".").pop() || "bin"` (sign/route.ts 27). -/
def extOf (filename : String) : String :=
  jsOr (String.mk ((splitOnChar '.' filename.data).getLastD [])) "bin"

/-- The `POST /upload-sign` handler (sign/route.ts 18-32); `nowMs` is
`Date.now()`, `rand` is `Math.random().toString(36).slice(2)`, and `signUrl`
the presigner.  The second component records the signing request made. -/
def uploadSignPOST (env : SignEnv) (body : SignBody) (nowMs : Nat) (rand : String)
    (signUrl : SignedPut → String) : HttpResponse × Option SignedPut :=
  match getS3 env with
  | none => ({ status := 400, body := [("error", Json.str "S3 is not configured")] }, none)
  | some bucket =>
      let filename := body.filename.getD ""
      if filename = "" then
        ({ status := 400, body := [("error", Json.str "filename required")] }, none)
      else
        let key := "uploads/" ++ Nat.repr nowMs ++ "_" ++ rand ++ "." ++ extOf filename
        let cmd : SignedPut :=
          { bucket := bucket,
            key := key,
            contentType := jsOr (body.contentType.getD "") "application/octet-stream",
            expiresIn := 60 * 10 }
        ({ status := 200, body := [("url", Json.str (signUrl cmd)), ("key", Json.str key)] },
         some cmd)

/-- JS `String.prototype.replaceAll` for a non-empty pattern: scan left to
right, replacing each (non-overlapping) occurrence of `pat` by `rep`. -/
def replaceAllL (pat rep : List Char) : List Char → List Char
  | [] => []
  | x :: xs =>
      if h : pat ≠ [] ∧ pat <+: (x :: xs) then
        rep ++ replaceAllL pat rep ((x :: xs).drop pat.length)
      else
        x :: replaceAllL pat rep xs
termination_by s => s.length
decreasing_by
  · have hp : 0 < pat.length := List.length_pos.mpr h.1
    simp only [List.length_drop, List.length_cons]
    omega
  · simp

/-- `escapeHtml` (part_000 455-462 and part_001 353-360): five sequential
`replaceAll`s, ampersand first.  `"\x27"` is the apostrophe. -/
def escapeHtml (s : String) : String :=
  String.mk (replaceAllL "\x27".data "&#39;".data
    (replaceAllL "\"".data "&quot;".data
      (replaceAllL ">".data "&gt;".data
        (replaceAllL "<".data "&lt;".data
          (replaceAllL "&".data "&amp;".data s.data)))))

/-- The inverse unescaping described by the spec: replace the five entities
back to their characters, the four character entities first and `&amp;`
last (the appropriate order). -/
def unescapeHtml (s : String) : String :=
  String.mk (replaceAllL "&amp;".data "&".data
    (replaceAllL "&#39;".data "\x27".data
      (replaceAllL "&quot;".data "\"".data
        (replaceAllL "&gt;".data ">".data
          (replaceAllL "&lt;".data "<".data s.data)))))

/-- Per-character image after the `&` replacement of `escapeHtml`. -/
def esc1 (c : Char) : List Char :=
  if c = '&' then "&amp;".data else [c]

/-- Per-character image after the `&`, `<` replacements. -/
def esc2 (c : Char) : List Char :=
  if c = '&' then "&amp;".data else if c = '<' then "&lt;".data else [c]

/-- Per-character image after the `&`, `<`, `>` replacements. -/
def esc3 (c : Char) : List Char :=
  if c = '&' then "&amp;".data
  else if c = '<' then "&lt;".data
  else if c = '>' then "&gt;".data
  else [c]

/-- Per-character image after the `&`, `<`, `>`, `"` replacements. -/
def esc4 (c : Char) : List Char :=
  if c = '&' then "&amp;".data
  else if c = '<' then "&lt;".data
  else if c = '>' then "&gt;".data
  else if c = '"' then "&quot;".data
  else [c]

/-- Per-character image of the full `escapeHtml`. -/
def esc5 (c : Char) : List Char :=
  if c = '&' then "&amp;".data
  else if c = '<' then "&lt;".data
  else if c = '>' then "&gt;".data
  else if c = '"' then "&quot;".data
  else if c = '\x27' then "&#39;".data
  else [c]

/-- Per-character image after undoing `&lt;`. -/
def une1 (c : Char) : List Char :=
  if c = '&' then "&amp;".data
  else if c = '>' then "&gt;".data
  else if c = '"' then "&quot;".data
  else if c = '\x27' then "&#39;".data
  else [c]

/-- Per-character image after undoing `&lt;`, `&gt;`. -/
def une2 (c : Char) : List Char :=
  if c = '&' then "&amp;".data
  else if c = '"' then "&quot;".data
  else if c = '\x27' then "&#39;".data
  else [c]

/-- Per-character image after undoing `&lt;`, `&gt;`, `&quot;`. -/
def une3 (c : Char) : List Char :=
  if c = '&' then "&amp;".data
  else if c = '\x27' then "&#39;".data
  else [c]

/-- Concrete fixtures used by the witnesses and counterexamples. -/
def fileA : AudioFile := { name := "a.mp3", content := [1], type := "audio/mpeg" }

def fileB : AudioFile := { name := "b.mp3", content := [2], type := "audio/mpeg" }

def fileC : AudioFile := { name := "c.mp3", content := [3], type := "audio/mpeg" }

def extFix : ExtCalls :=
  { primaryT := fun f => Except.ok ("T:" ++ f.name),
    fallbackT := fun _ => Except.error "transcription failed",
    s3Read := fun _ => [],
    htmlStrip := fun s => s,
    styleContent := none,
    minutesContent := none,
    jsonParse := fun _ => none }

def extW : ExtCalls :=
  { extFix with
    primaryT := fun f =>
      if f.name = "b.mp3" then Except.error "boom" else Except.ok ("T:" ++ f.name) }

def envAI : MinutesEnv :=
  { openaiApiKey := some "sk-test", awsRegion := none, awsBucket := none,
    awsAccessKeyId := none, awsSecretAccessKey := none }

def envAWS : MinutesEnv :=
  { openaiApiKey := some "sk-test", awsRegion := some "us-east-1", awsBucket := some "bkt",
    awsAccessKeyId := some "AK", awsSecretAccessKey := some "SK" }

def reqEmpty : MRequest :=
  { contentTypeHeader := some "multipart/form-data", formAudio := [], formStyle := [],
    formS3Keys := [], jsonS3Keys := none }

def envSignOK : SignEnv :=
  { awsRegion := some "us-east-1", awsBucket := some "bkt",
    awsAccessKeyId := some "AK", awsSecretAccessKey := some "SK" }

def bodySignOK : SignBody := { filename := some "meeting.mp3", contentType := some "audio/mpeg" }

def signFix : SignedPut → String := fun cmd => "https://bkt.s3.amazonaws.com/" ++ cmd.key

theorem postScope_no_transcript (a b c d : String) :
    (postScope a b c d).lookup "transcript" = none := rfl

/-- C1: for every request to `POST /minutes`, of any content type and body,
the call to `summarize` names the undeclared identifier `transcript`
(absent from the handler scope `postScope`), so evaluation always throws
before the success response is built and every request yields status 500
with an error-message body; the 200 branch is unreachable. -/
theorem postMinutes_always_500 (env : MinutesEnv) (ext : ExtCalls) (req : MRequest) :
    (postMinutes env ext req).1 =
      { status := 500, body := [("error", Json.str "transcript is not defined")] } ∧
    (postMinutes env ext req).1.status ≠ 200 ∧
    (∀ a b c d : String, (postScope a b c d).lookup "transcript" = none) := by
  refine ⟨rfl, ?_, fun a b c d => rfl⟩
  have h : (postMinutes env ext req).1.status = 500 := rfl
  rw [h]
  decide

/-- C3 counterexample: on a structured-output parse failure `summarize`
returns an object with no `minutes` field at all, so the minutes-body field
is not the literal placeholder string the claim names. -/
theorem parse_failure_no_minutes_cex :
    (summarize (some ()) extFix "t" "").1.lookup "minutes" = none ∧
    (summarize (some ()) extFix "t" "").1 =
      [("transcript", Json.str "t"), ("summary", Json.str "要約の解析に失敗しました。")] :=
  ⟨rfl, rfl⟩

/-- C3 (amended): for every model response whose content fails to parse as
structured JSON, `summarize` returns (rather than throws) a result whose
`summary` is exactly "要約の解析に失敗しました。" and whose `transcript` is the
input transcript; the result carries no minutes-body field. -/
theorem summarize_parse_failure_placeholder (ext : ExtCalls) (t sg : String)
    (h : ext.jsonParse (ext.minutesContent.getD "{}") = none) :
    (summarize (some ()) ext t sg).1 =
      [("transcript", Json.str t), ("summary", Json.str "要約の解析に失敗しました。")] ∧
    (summarize (some ()) ext t sg).1.lookup "minutes" = none := by
  have hs : (summarize (some ()) ext t sg).1 =
      [("transcript", Json.str t), ("summary", Json.str "要約の解析に失敗しました。")] := by
    simp only [summarize]
    rw [h]
  exact ⟨hs, by rw [hs]; rfl⟩

theorem summarize_parse_failure_placeholder_witness :
    extFix.jsonParse (extFix.minutesContent.getD "{}") = none ∧
    ((summarize (some ()) extFix "tr" "sg").1 =
      [("transcript", Json.str "tr"), ("summary", Json.str "要約の解析に失敗しました。")] ∧
     (summarize (some ()) extFix "tr" "sg").1.lookup "minutes" = none) :=
  ⟨rfl, summarize_parse_failure_placeholder extFix "tr" "sg" rfl⟩

/-- C2 counterexample: the mock `MinutesResult` produced by `summarize` has
no minutes-body field, and neither does the success response body built
from it, refuting the claimed five-field shape with present `minutes`. -/
theorem success_no_minutes_field_cex :
    (summarize none extFix "t" "").1.lookup "minutes" = none ∧
    (successBody (summarize none extFix "t" "").1 "t" "" none).lookup "minutes" = none :=
  ⟨rfl, rfl⟩

theorem summarize_result_shape (openai : Option Unit) (ext : ExtCalls) (t sg : String) :
    ∃ v1 v2 : Json, (summarize openai ext t sg).1 = [("transcript", v1), ("summary", v2)] := by
  rcases openai with _ | u
  · exact ⟨_, _, rfl⟩
  · cases hp : ext.jsonParse (ext.minutesContent.getD "{}") with
    | none =>
        exact ⟨Json.str t, Json.str "要約の解析に失敗しました。", by simp only [summarize, hp]⟩
    | some parsed =>
        cases hv : jsProp parsed "summary" with
        | none =>
            exact ⟨Json.str t, Json.str "要約の解析に失敗しました。", by simp only [summarize, hp, hv]⟩
        | some v =>
            exact ⟨Json.str t, nullishToEmpty v, by simp only [summarize, hp, hv]⟩

/-- C2 (amended): every `summarize` result has present `transcript` and
`summary` fields (never undefined) and no minutes-body field, and the
success response body has exactly the fields `transcript`, `summary`,
`styleGuidelines`, `usedAI` — no `minutes` field (and by C1 no request
reaches it). -/
theorem minutes_response_fields (openai : Option Unit) (ext : ExtCalls)
    (t sg tfu sg2 : String) :
    ((summarize openai ext t sg).1.lookup "summary").isSome = true ∧
    ((summarize openai ext t sg).1.lookup "transcript").isSome = true ∧
    (summarize openai ext t sg).1.lookup "minutes" = none ∧
    (successBody (summarize openai ext t sg).1 tfu sg2 openai).map Prod.fst =
      ["transcript", "summary", "styleGuidelines", "usedAI"] ∧
    (successBody (summarize openai ext t sg).1 tfu sg2 openai).lookup "minutes" = none := by
  obtain ⟨v1, v2, hsh⟩ := summarize_result_shape openai ext t sg
  rw [hsh]
  exact ⟨rfl, rfl, rfl, rfl, rfl⟩

/-- C6 counterexample: with no AI credential, `summarize` is not a fixed
triple: its `transcript` field echoes the caller's transcript (here
`"hello"`, not the placeholder), and it has no minutes-body field. -/
theorem mock_not_fixed_triple_cex :
    (summarize none extFix "hello" "").1.lookup "transcript" = some (Json.str "hello") ∧
    "hello" ≠ "【モック転記】AIキー未設定のためダミー本文。" ∧
    (summarize none extFix "hello" "").1.lookup "minutes" = none :=
  ⟨rfl, by decide, rfl⟩

/-- C6 (amended): with no AI credential `summarize` deterministically
returns, with no AI call, the two-field mock
`{transcript: transcript || placeholder, summary: fixed mock}` (no
minutes-body field), and the success-response builder would set `usedAI`
to `false` — though by C1 no response ever reaches the caller with it. -/
theorem summarize_mock_pair (ext : ExtCalls) (t sg tfu : String) :
    (summarize none ext t sg).1 =
      [("transcript", Json.str (jsOr t "【モック転記】AIキー未設定のためダミー本文。")),
       ("summary", Json.str "【モック要約】主要論点と次回アクションを整理しました。")] ∧
    (summarize none ext t sg).2 = [] ∧
    (successBody (summarize none ext t sg).1 tfu sg none).lookup "usedAI" =
      some (Json.bool false) :=
  ⟨rfl, rfl, rfl⟩

/-- C7: for every corpus shorter than 200 characters `buildStyleGuidelines`
returns the empty string whatever the AI handle, and with no AI capability
it returns the empty string for every corpus. -/
theorem buildStyleGuidelines_empty_cases (openai : Option Unit) (chat : Option String)
    (corpus : String) :
    (corpus.length < 200 → (buildStyleGuidelines openai chat corpus).1 = "") ∧
    (buildStyleGuidelines none chat corpus).1 = "" := by
  constructor
  · intro h
    unfold buildStyleGuidelines
    rw [if_pos (Or.inr h)]
  · unfold buildStyleGuidelines
    by_cases hc : corpus = "" ∨ corpus.length < 200
    · rw [if_pos hc]
    · rw [if_neg hc]

theorem buildStyleGuidelines_empty_cases_witness :
    ("short corpus".length < 200 ∧
      (buildStyleGuidelines (some ()) (some "guide") "short corpus").1 = "") ∧
    (buildStyleGuidelines none (some "guide") "anything at all").1 = "" :=
  ⟨⟨by decide,
    (buildStyleGuidelines_empty_cases (some ()) (some "guide") "short corpus").1 (by decide)⟩,
   (buildStyleGuidelines_empty_cases none (some "guide") "anything at all").2⟩

/-- C9: `POST /upload-sign` returns 400 exactly when one of the four storage
environment values is missing or the filename is falsy; otherwise it
returns 200 with `{url, key}`, the key being
`uploads/<timestamp>_<random>.<ext>` and the signed write request expiring
in 600 seconds. -/
theorem uploadSign_spec (env : SignEnv) (body : SignBody) (nowMs : Nat) (rand : String)
    (signUrl : SignedPut → String) :
    (getS3 env = none ↔
      (env.awsRegion.getD "" = "" ∨ env.awsBucket.getD "" = "" ∨
       env.awsAccessKeyId.getD "" = "" ∨ env.awsSecretAccessKey.getD "" = "")) ∧
    ((uploadSignPOST env body nowMs rand signUrl).1.status = 400 ↔
      (getS3 env = none ∨ body.filename.getD "" = "")) ∧
    ((getS3 env ≠ none ∧ body.filename.getD "" ≠ "") →
      ∃ cmd : SignedPut,
        (uploadSignPOST env body nowMs rand signUrl).2 = some cmd ∧
        (uploadSignPOST env body nowMs rand signUrl).1.status = 200 ∧
        (uploadSignPOST env body nowMs rand signUrl).1.body =
          [("url", Json.str (signUrl cmd)), ("key", Json.str cmd.key)] ∧
        cmd.key = "uploads/" ++ Nat.repr nowMs ++ "_" ++ rand ++ "." ++
          extOf (body.filename.getD "") ∧
        cmd.expiresIn = 600) := by
  refine ⟨?_, ?_, ?_⟩
  · unfold getS3
    by_cases hc : env.awsRegion.getD "" = "" ∨ env.awsBucket.getD "" = "" ∨
        env.awsAccessKeyId.getD "" = "" ∨ env.awsSecretAccessKey.getD "" = ""
    · rw [if_pos hc]; simp [hc]
    · rw [if_neg hc]; simp [hc]
  · cases hs : getS3 env with
    | none => simp [uploadSignPOST, hs]
    | some bucket =>
        by_cases hf : body.filename.getD "" = ""
        · simp [uploadSignPOST, hs, hf]
        · simp [uploadSignPOST, hs, hf]
  · intro hcond
    cases hs : getS3 env with
    | none => exact absurd hs hcond.1
    | some bucket =>
        have h2 := hcond.2
        have he : uploadSignPOST env body nowMs rand signUrl =
            ({ status := 200,
               body := [("url", Json.str (signUrl
                   { bucket := bucket,
                     key := "uploads/" ++ Nat.repr nowMs ++ "_" ++ rand ++ "." ++
                       extOf (body.filename.getD ""),
                     contentType := jsOr (body.contentType.getD "") "application/octet-stream",
                     expiresIn := 60 * 10 })),
                 ("key", Json.str ("uploads/" ++ Nat.repr nowMs ++ "_" ++ rand ++ "." ++
                   extOf (body.filename.getD "")))] },
             some { bucket := bucket,
                    key := "uploads/" ++ Nat.repr nowMs ++ "_" ++ rand ++ "." ++
                      extOf (body.filename.getD ""),
                    contentType := jsOr (body.contentType.getD "") "application/octet-stream",
                    expiresIn := 60 * 10 }) := by
          simp only [uploadSignPOST, hs]
          rw [if_neg h2]
        refine ⟨_, by rw [he], by rw [he], by rw [he], rfl, rfl⟩

theorem uploadSign_spec_witness :
    (getS3 envSignOK ≠ none ∧ bodySignOK.filename.getD "" ≠ "") ∧
    (∃ cmd : SignedPut,
        (uploadSignPOST envSignOK bodySignOK 1700000000000 "abc123" signFix).2 = some cmd ∧
        (uploadSignPOST envSignOK bodySignOK 1700000000000 "abc123" signFix).1.status = 200 ∧
        (uploadSignPOST envSignOK bodySignOK 1700000000000 "abc123" signFix).1.body =
          [("url", Json.str (signFix cmd)), ("key", Json.str cmd.key)] ∧
        cmd.key = "uploads/" ++ Nat.repr 1700000000000 ++ "_" ++ "abc123" ++ "." ++
          extOf (bodySignOK.filename.getD "") ∧
        cmd.expiresIn = 600) :=
  ⟨⟨by decide, by decide⟩,
   (uploadSign_spec envSignOK bodySignOK 1700000000000 "abc123" signFix).2.2
     ⟨by decide, by decide⟩⟩

/-- C4 counterexample: a multipart request carrying both a direct audio file
and a storage key transcribes and appends the storage key's audio as well —
the key is not ignored, so two input modes are honored at once. -/
theorem storage_keys_not_ignored_cex :
    ([fileA] : List AudioFile) ≠ [] ∧
    (assembleTranscript (some ()) envAWS extFix [fileA] ["uploads/b.mp3"]).1 =
      "T:a.mp3\n\nT:b.mp3" ∧
    (assembleTranscript (some ()) envAWS extFix [fileA] []).1 = "T:a.mp3" :=
  ⟨by simp, rfl, rfl⟩

/-- C4 (amended): storage keys are never ignored: every readable storage
key's transcription is appended, preceded by a blank line, to the
direct-audio transcript, whether or not direct audio files are present. -/
theorem storage_keys_always_appended (openai : Option Unit) (env : MinutesEnv)
    (ext : ExtCalls) (audioFiles : List AudioFile) (k : String) (buf : List Nat)
    (hread : readFromS3Key env ext k = some buf) :
    (assembleTranscript openai env ext audioFiles [k]).1 =
      (transcribeAll openai ext audioFiles).1 ++ "\n\n" ++
        (transcribeAll openai ext [mkFakeFile k buf]).1 := by
  have hbase : (([k] : List String).isEmpty : Bool) = false := rfl
  simp only [assembleTranscript, hbase, Bool.false_eq_true, if_false]
  simp [s3KeyLoop, hread]

theorem storage_keys_always_appended_witness :
    readFromS3Key envAWS extFix "uploads/b.mp3" = some [] ∧
    (assembleTranscript (some ()) envAWS extFix [fileA] ["uploads/b.mp3"]).1 =
      (transcribeAll (some ()) extFix [fileA]).1 ++ "\n\n" ++
        (transcribeAll (some ()) extFix [mkFakeFile "uploads/b.mp3" []]).1 :=
  ⟨rfl, storage_keys_always_appended (some ()) envAWS extFix [fileA] "uploads/b.mp3" [] rfl⟩

/-- C5 counterexample: a request whose transcript text is empty (no audio,
no storage keys) is answered with status 500, not the claimed 400 — the
route has no 400 branch at all. -/
theorem empty_transcript_returns_500_cex :
    (postMinutes envAI extFix reqEmpty).1.status = 500 ∧
    (postMinutes envAI extFix reqEmpty).1.status ≠ 400 ∧
    (postMinutes envAI extFix reqEmpty).2 = [] :=
  ⟨rfl, by decide, rfl⟩

/-- C5 (amended): for every request that supplies no audio files and no
storage keys (so the assembled transcript text is empty) and whose style
corpus is shorter than 200 characters, the endpoint returns status 500 —
never 400 — and no AI capability of any kind is invoked before that
error. -/
theorem empty_request_500_no_ai (env : MinutesEnv) (ext : ExtCalls) (req : MRequest)
    (ha : (ingest req).1 = []) (hk : (ingest req).2.2 = [])
    (hc : (readStyleFiles ext.htmlStrip (ingest req).2.1).length < 200) :
    (postMinutes env ext req).1.status = 500 ∧
    (postMinutes env ext req).1.status ≠ 400 ∧
    (postMinutes env ext req).2 = [] := by
  refine ⟨rfl, ?_, ?_⟩
  · have h : (postMinutes env ext req).1.status = 500 := rfl
    rw [h]
    decide
  · have h3 : (buildStyleGuidelines (getOpenAI env) ext.styleContent
        (readStyleFiles ext.htmlStrip (ingest req).2.1)).2 = [] := by
      unfold buildStyleGuidelines
      rw [if_pos (Or.inr hc)]
    have h2 : (postMinutes env ext req).2 =
        (assembleTranscript (getOpenAI env) env ext (ingest req).1 (ingest req).2.2).2 ++
        (buildStyleGuidelines (getOpenAI env) ext.styleContent
          (readStyleFiles ext.htmlStrip (ingest req).2.1)).2 := rfl
    rw [h2, ha, hk, h3]
    rfl

theorem empty_request_500_no_ai_witness :
    ((ingest reqEmpty).1 = [] ∧ (ingest reqEmpty).2.2 = [] ∧
      (readStyleFiles extFix.htmlStrip (ingest reqEmpty).2.1).length < 200) ∧
    ((postMinutes envAI extFix reqEmpty).1.status = 500 ∧
     (postMinutes envAI extFix reqEmpty).1.status ≠ 400 ∧
     (postMinutes envAI extFix reqEmpty).2 = []) :=
  ⟨⟨rfl, rfl, by decide⟩,
   empty_request_500_no_ai envAI extFix reqEmpty rfl rfl (by decide)⟩

theorem transcribeLoop_fst (ext : ExtCalls) (fs : List AudioFile) :
    (transcribeLoop ext fs).1 = fs.map (fun g => (transcribeOne ext g).1) := by
  induction fs with
  | nil => rfl
  | cons f fs ih => simp [transcribeLoop, ih]

theorem transcribeAll_eq_mapFilter (ext : ExtCalls) (fs : List AudioFile) :
    (transcribeAll (some ()) ext fs).1 =
      joinSep "\n\n" ((fs.map (fun g => (transcribeOne ext g).1)).filter
        (fun p => p != "")) := by
  cases fs with
  | nil => rfl
  | cons f fs =>
      simp only [transcribeAll]
      rw [transcribeLoop_fst]
      rfl

theorem transcribeOne_both_fail (ext : ExtCalls) (f : AudioFile)
    (hp : (ext.primaryT f).isOk = false) (hf : (ext.fallbackT f).isOk = false) :
    (transcribeOne ext f).1 = "" := by
  unfold transcribeOne
  cases hp2 : ext.primaryT f with
  | ok t => rw [hp2] at hp; simp [Except.isOk, Except.toBool] at hp
  | error e =>
      cases hf2 : ext.fallbackT f with
      | ok t => rw [hf2] at hf; simp [Except.isOk, Except.toBool] at hf
      | error e2 => rfl

/-- C8: with an AI capability, each audio file is attempted at most twice
(primary `gpt-4o-transcribe`, then the `whisper-1` fallback); a file whose
both attempts fail contributes the empty string without aborting the batch;
the final transcript is the non-empty per-file results, in input order,
joined with a blank line — so a single file's failure never prevents the
other files' transcripts from appearing. -/
theorem transcribeAll_fault_isolation (ext : ExtCalls) (pre post : List AudioFile)
    (f : AudioFile)
    (hp : (ext.primaryT f).isOk = false) (hf : (ext.fallbackT f).isOk = false) :
    (∀ g : AudioFile, (transcribeOne ext g).2.length ≤ 2 ∧
      ((transcribeOne ext g).2 = [AICall.transcribe "gpt-4o-transcribe" g.name] ∨
       (transcribeOne ext g).2 = [AICall.transcribe "gpt-4o-transcribe" g.name,
                                  AICall.transcribe "whisper-1" g.name])) ∧
    (transcribeOne ext f).1 = "" ∧
    (transcribeAll (some ()) ext (pre ++ f :: post)).1 =
      joinSep "\n\n" (((pre ++ f :: post).map (fun g => (transcribeOne ext g).1)).filter
        (fun p => p != "")) ∧
    (transcribeAll (some ()) ext (pre ++ f :: post)).1 =
      (transcribeAll (some ()) ext (pre ++ post)).1 := by
  have hboth := transcribeOne_both_fail ext f hp hf
  refine ⟨?_, hboth, transcribeAll_eq_mapFilter ext _, ?_⟩
  · intro g
    unfold transcribeOne
    cases ext.primaryT g with
    | ok t => exact ⟨by simp, Or.inl rfl⟩
    | error e =>
        cases ext.fallbackT g with
        | ok t => exact ⟨by simp, Or.inr rfl⟩
        | error e2 => exact ⟨by simp, Or.inr rfl⟩
  · rw [transcribeAll_eq_mapFilter, transcribeAll_eq_mapFilter]
    simp only [List.map_append, List.map_cons, List.filter_append, List.filter_cons]
    rw [hboth]
    simp

theorem transcribeAll_fault_isolation_witness :
    ((extW.primaryT fileB).isOk = false ∧ (extW.fallbackT fileB).isOk = false) ∧
    (transcribeAll (some ()) extW [fileA, fileB, fileC]).1 =
      (transcribeAll (some ()) extW [fileA, fileC]).1 ∧
    (transcribeAll (some ()) extW [fileA, fileB, fileC]).1 = "T:a.mp3\n\nT:c.mp3" :=
  ⟨⟨rfl, rfl⟩,
   (transcribeAll_fault_isolation extW [fileA] [fileC] fileB rfl rfl).2.2.2,
   by decide⟩

theorem replaceAllL_nil (pat rep : List Char) : replaceAllL pat rep [] = [] := by
  rw [replaceAllL]

theorem replaceAllL_match (pat rep t : List Char) (hne : pat ≠ []) :
    replaceAllL pat rep (pat ++ t) = rep ++ replaceAllL pat rep t := by
  match pat, hne with
  | p :: ps, _ =>
    rw [List.cons_append, replaceAllL]
    rw [dif_pos ⟨by simp, ⟨t, by simp⟩⟩]
    congr 1
    rw [show (p :: (ps ++ t)) = (p :: ps) ++ t by simp]
    rw [List.drop_left]

theorem replaceAllL_skip (pat rep : List Char) (x : Char) (xs : List Char)
    (h : ¬ pat <+: (x :: xs)) :
    replaceAllL pat rep (x :: xs) = x :: replaceAllL pat rep xs := by
  rw [replaceAllL, dif_neg]
  intro hc
  exact h hc.2

theorem not_pre_head {p x : Char} {ps xs : List Char} (h : p ≠ x) :
    ¬ (p :: ps) <+: (x :: xs) := by
  rintro ⟨t, ht⟩
  rw [List.cons_append] at ht
  exact h (List.cons.inj ht).1

theorem not_pre_second {p q x y : Char} {ps xs : List Char} (h : q ≠ y) :
    ¬ (p :: q :: ps) <+: (x :: y :: xs) := by
  rintro ⟨t, ht⟩
  simp only [List.cons_append] at ht
  have h2 := (List.cons.inj ht).2
  exact h (List.cons.inj h2).1

theorem replaceAllL_pass_tail (p0 : Char) (prest rep : List Char) (bs t : List Char)
    (htail : ∀ x ∈ bs, x ≠ p0) :
    replaceAllL (p0 :: prest) rep (bs ++ t) = bs ++ replaceAllL (p0 :: prest) rep t := by
  induction bs with
  | nil => simp
  | cons b bs ih =>
      have hb : b ≠ p0 := htail b (List.mem_cons_self b bs)
      rw [List.cons_append,
          replaceAllL_skip _ _ _ _ (not_pre_head (Ne.symm hb)),
          ih (fun x hx => htail x (List.mem_cons_of_mem b hx)),
          List.cons_append]

theorem replaceAllL_pass_entity (p0 p1 : Char) (prest rep : List Char)
    (b1 : Char) (brest t : List Char) (hne : p1 ≠ b1)
    (htail : ∀ x ∈ b1 :: brest, x ≠ p0) :
    replaceAllL (p0 :: p1 :: prest) rep ((p0 :: b1 :: brest) ++ t) =
      (p0 :: b1 :: brest) ++ replaceAllL (p0 :: p1 :: prest) rep t := by
  simp only [List.cons_append]
  rw [replaceAllL_skip _ _ _ _ (not_pre_second hne)]
  have h2 := replaceAllL_pass_tail p0 (p1 :: prest) rep (b1 :: brest) t htail
  simp only [List.cons_append] at h2
  rw [h2]

theorem chain_step {pat rep : List Char} {f g : Char → List Char}
    (hstep : ∀ c t, replaceAllL pat rep (f c ++ t) = g c ++ replaceAllL pat rep t)
    (s : List Char) :
    replaceAllL pat rep (s.flatMap f) = s.flatMap g := by
  induction s with
  | nil => simp [replaceAllL_nil]
  | cons x xs ih => rw [List.flatMap_cons, List.flatMap_cons, hstep, ih]

theorem dataAmp : "&amp;".data = ['&', 'a', 'm', 'p', ';'] := rfl

theorem dataLt : "&lt;".data = ['&', 'l', 't', ';'] := rfl

theorem dataGt : "&gt;".data = ['&', 'g', 't', ';'] := rfl

theorem dataQuot : "&quot;".data = ['&', 'q', 'u', 'o', 't', ';'] := rfl

theorem dataApos : "&#39;".data = ['&', '#', '3', '9', ';'] := rfl

theorem step_esc1 (c : Char) (t : List Char) :
    replaceAllL "&".data "&amp;".data ([c] ++ t) =
      esc1 c ++ replaceAllL "&".data "&amp;".data t := by
  by_cases h1 : c = '&'
  · subst h1
    rw [show esc1 '&' = "&amp;".data from rfl]
    exact replaceAllL_match _ _ _ (by decide)
  · rw [show esc1 c = [c] from by simp [esc1, h1]]
    exact replaceAllL_pass_tail '&' [] _ [c] t
      (by intro x hx; simp at hx; subst hx; exact h1)

theorem step_esc2 (c : Char) (t : List Char) :
    replaceAllL "<".data "&lt;".data (esc1 c ++ t) =
      esc2 c ++ replaceAllL "<".data "&lt;".data t := by
  by_cases h1 : c = '&'
  · subst h1
    rw [show esc1 '&' = "&amp;".data from rfl, show esc2 '&' = "&amp;".data from rfl, dataAmp]
    exact replaceAllL_pass_tail '<' [] _ ['&', 'a', 'm', 'p', ';'] t (by decide)
  · by_cases h2 : c = '<'
    · subst h2
      rw [show esc1 '<' = ['<'] from rfl, show esc2 '<' = "&lt;".data from rfl]
      exact replaceAllL_match _ _ _ (by decide)
    · rw [show esc1 c = [c] from by simp [esc1, h1],
          show esc2 c = [c] from by simp [esc2, h1, h2]]
      exact replaceAllL_pass_tail '<' [] _ [c] t
        (by intro x hx; simp at hx; subst hx; exact h2)

theorem step_esc3 (c : Char) (t : List Char) :
    replaceAllL ">".data "&gt;".data (esc2 c ++ t) =
      esc3 c ++ replaceAllL ">".data "&gt;".data t := by
  by_cases h1 : c = '&'
  · subst h1
    rw [show esc2 '&' = "&amp;".data from rfl, show esc3 '&' = "&amp;".data from rfl, dataAmp]
    exact replaceAllL_pass_tail '>' [] _ ['&', 'a', 'm', 'p', ';'] t (by decide)
  · by_cases h2 : c = '<'
    · subst h2
      rw [show esc2 '<' = "&lt;".data from rfl, show esc3 '<' = "&lt;".data from rfl, dataLt]
      exact replaceAllL_pass_tail '>' [] _ ['&', 'l', 't', ';'] t (by decide)
    · by_cases h3 : c = '>'
      · subst h3
        rw [show esc2 '>' = ['>'] from rfl, show esc3 '>' = "&gt;".data from rfl]
        exact replaceAllL_match _ _ _ (by decide)
      · rw [show esc2 c = [c] from by simp [esc2, h1, h2],
            show esc3 c = [c] from by simp [esc3, h1, h2, h3]]
        exact replaceAllL_pass_tail '>' [] _ [c] t
          (by intro x hx; simp at hx; subst hx; exact h3)

theorem step_esc4 (c : Char) (t : List Char) :
    replaceAllL "\"".data "&quot;".data (esc3 c ++ t) =
      esc4 c ++ replaceAllL "\"".data "&quot;".data t := by
  by_cases h1 : c = '&'
  · subst h1
    rw [show esc3 '&' = "&amp;".data from rfl, show esc4 '&' = "&amp;".data from rfl, dataAmp]
    exact replaceAllL_pass_tail '"' [] _ ['&', 'a', 'm', 'p', ';'] t (by decide)
  · by_cases h2 : c = '<'
    · subst h2
      rw [show esc3 '<' = "&lt;".data from rfl, show esc4 '<' = "&lt;".data from rfl, dataLt]
      exact replaceAllL_pass_tail '"' [] _ ['&', 'l', 't', ';'] t (by decide)
    · by_cases h3 : c = '>'
      · subst h3
        rw [show esc3 '>' = "&gt;".data from rfl, show esc4 '>' = "&gt;".data from rfl, dataGt]
        exact replaceAllL_pass_tail '"' [] _ ['&', 'g', 't', ';'] t (by decide)
      · by_cases h4 : c = '"'
        · subst h4
          rw [show esc3 '"' = ['"'] from rfl, show esc4 '"' = "&quot;".data from rfl]
          exact replaceAllL_match _ _ _ (by decide)
        · rw [show esc3 c = [c] from by simp [esc3, h1, h2, h3],
              show esc4 c = [c] from by simp [esc4, h1, h2, h3, h4]]
          exact replaceAllL_pass_tail '"' [] _ [c] t
            (by intro x hx; simp at hx; subst hx; exact h4)

theorem step_esc5 (c : Char) (t : List Char) :
    replaceAllL "\x27".data "&#39;".data (esc4 c ++ t) =
      esc5 c ++ replaceAllL "\x27".data "&#39;".data t := by
  by_cases h1 : c = '&'
  · subst h1
    rw [show esc4 '&' = "&amp;".data from rfl, show esc5 '&' = "&amp;".data from rfl, dataAmp]
    exact replaceAllL_pass_tail '\x27' [] _ ['&', 'a', 'm', 'p', ';'] t (by decide)
  · by_cases h2 : c = '<'
    · subst h2
      rw [show esc4 '<' = "&lt;".data from rfl, show esc5 '<' = "&lt;".data from rfl, dataLt]
      exact replaceAllL_pass_tail '\x27' [] _ ['&', 'l', 't', ';'] t (by decide)
    · by_cases h3 : c = '>'
      · subst h3
        rw [show esc4 '>' = "&gt;".data from rfl, show esc5 '>' = "&gt;".data from rfl, dataGt]
        exact replaceAllL_pass_tail '\x27' [] _ ['&', 'g', 't', ';'] t (by decide)
      · by_cases h4 : c = '"'
        · subst h4
          rw [show esc4 '"' = "&quot;".data from rfl,
              show esc5 '"' = "&quot;".data from rfl, dataQuot]
          exact replaceAllL_pass_tail '\x27' [] _ ['&', 'q', 'u', 'o', 't', ';'] t (by decide)
        · by_cases h5 : c = '\x27'
          · subst h5
            rw [show esc4 '\x27' = ['\x27'] from rfl,
                show esc5 '\x27' = "&#39;".data from rfl]
            exact replaceAllL_match _ _ _ (by decide)
          · rw [show esc4 c = [c] from by simp [esc4, h1, h2, h3, h4],
                show esc5 c = [c] from by simp [esc5, h1, h2, h3, h4, h5]]
            exact replaceAllL_pass_tail '\x27' [] _ [c] t
              (by intro x hx; simp at hx; subst hx; exact h5)

theorem step_une1 (c : Char) (t : List Char) :
    replaceAllL "&lt;".data "<".data (esc5 c ++ t) =
      une1 c ++ replaceAllL "&lt;".data "<".data t := by
  by_cases h1 : c = '&'
  · subst h1
    rw [show esc5 '&' = "&amp;".data from rfl, show une1 '&' = "&amp;".data from rfl, dataAmp]
    exact replaceAllL_pass_entity '&' 'l' ['t', ';'] _ 'a' ['m', 'p', ';'] t
      (by decide) (by decide)
  · by_cases h2 : c = '<'
    · subst h2
      rw [show esc5 '<' = "&lt;".data from rfl, show une1 '<' = "<".data from rfl]
      exact replaceAllL_match _ _ _ (by decide)
    · by_cases h3 : c = '>'
      · subst h3
        rw [show esc5 '>' = "&gt;".data from rfl, show une1 '>' = "&gt;".data from rfl, dataGt]
        exact replaceAllL_pass_entity '&' 'l' ['t', ';'] _ 'g' ['t', ';'] t
          (by decide) (by decide)
      · by_cases h4 : c = '"'
        · subst h4
          rw [show esc5 '"' = "&quot;".data from rfl,
              show une1 '"' = "&quot;".data from rfl, dataQuot]
          exact replaceAllL_pass_entity '&' 'l' ['t', ';'] _ 'q' ['u', 'o', 't', ';'] t
            (by decide) (by decide)
        · by_cases h5 : c = '\x27'
          · subst h5
            rw [show esc5 '\x27' = "&#39;".data from rfl,
                show une1 '\x27' = "&#39;".data from rfl, dataApos]
            exact replaceAllL_pass_entity '&' 'l' ['t', ';'] _ '#' ['3', '9', ';'] t
              (by decide) (by decide)
          · rw [show esc5 c = [c] from by simp [esc5, h1, h2, h3, h4, h5],
                show une1 c = [c] from by simp [une1, h1, h3, h4, h5]]
            exact replaceAllL_pass_tail '&' ['l', 't', ';'] _ [c] t
              (by intro x hx; simp at hx; subst hx; exact h1)

theorem step_une2 (c : Char) (t : List Char) :
    replaceAllL "&gt;".data ">".data (une1 c ++ t) =
      une2 c ++ replaceAllL "&gt;".data ">".data t := by
  by_cases h1 : c = '&'
  · subst h1
    rw [show une1 '&' = "&amp;".data from rfl, show une2 '&' = "&amp;".data from rfl, dataAmp]
    exact replaceAllL_pass_entity '&' 'g' ['t', ';'] _ 'a' ['m', 'p', ';'] t
      (by decide) (by decide)
  · by_cases h3 : c = '>'
    · subst h3
      rw [show une1 '>' = "&gt;".data from rfl, show une2 '>' = ">".data from rfl]
      exact replaceAllL_match _ _ _ (by decide)
    · by_cases h4 : c = '"'
      · subst h4
        rw [show une1 '"' = "&quot;".data from rfl,
            show une2 '"' = "&quot;".data from rfl, dataQuot]
        exact replaceAllL_pass_entity '&' 'g' ['t', ';'] _ 'q' ['u', 'o', 't', ';'] t
          (by decide) (by decide)
      · by_cases h5 : c = '\x27'
        · subst h5
          rw [show une1 '\x27' = "&#39;".data from rfl,
              show une2 '\x27' = "&#39;".data from rfl, dataApos]
          exact replaceAllL_pass_entity '&' 'g' ['t', ';'] _ '#' ['3', '9', ';'] t
            (by decide) (by decide)
        · rw [show une1 c = [c] from by simp [une1, h1, h3, h4, h5],
              show une2 c = [c] from by simp [une2, h1, h4, h5]]
          exact replaceAllL_pass_tail '&' ['g', 't', ';'] _ [c] t
            (by intro x hx; simp at hx; subst hx; exact h1)

theorem step_une3 (c : Char) (t : List Char) :
    replaceAllL "&quot;".data "\"".data (une2 c ++ t) =
      une3 c ++ replaceAllL "&quot;".data "\"".data t := by
  by_cases h1 : c = '&'
  · subst h1
    rw [show une2 '&' = "&amp;".data from rfl, show une3 '&' = "&amp;".data from rfl, dataAmp]
    exact replaceAllL_pass_entity '&' 'q' ['u', 'o', 't', ';'] _ 'a' ['m', 'p', ';'] t
      (by decide) (by decide)
  · by_cases h4 : c = '"'
    · subst h4
      rw [show une2 '"' = "&quot;".data from rfl, show une3 '"' = "\"".data from rfl]
      exact replaceAllL_match _ _ _ (by decide)
    · by_cases h5 : c = '\x27'
      · subst h5
        rw [show une2 '\x27' = "&#39;".data from rfl,
            show une3 '\x27' = "&#39;".data from rfl, dataApos]
        exact replaceAllL_pass_entity '&' 'q' ['u', 'o', 't', ';'] _ '#' ['3', '9', ';'] t
          (by decide) (by decide)
      · rw [show une2 c = [c] from by simp [une2, h1, h4, h5],
            show une3 c = [c] from by simp [une3, h1, h5]]
        exact replaceAllL_pass_tail '&' ['q', 'u', 'o', 't', ';'] _ [c] t
          (by intro x hx; simp at hx; subst hx; exact h1)

theorem step_une4 (c : Char) (t : List Char) :
    replaceAllL "&#39;".data "\x27".data (une3 c ++ t) =
      esc1 c ++ replaceAllL "&#39;".data "\x27".data t := by
  by_cases h1 : c = '&'
  · subst h1
    rw [show une3 '&' = "&amp;".data from rfl, show esc1 '&' = "&amp;".data from rfl, dataAmp]
    exact replaceAllL_pass_entity '&' '#' ['3', '9', ';'] _ 'a' ['m', 'p', ';'] t
      (by decide) (by decide)
  · by_cases h5 : c = '\x27'
    · subst h5
      rw [show une3 '\x27' = "&#39;".data from rfl, show esc1 '\x27' = ['\x27'] from rfl]
      exact replaceAllL_match _ _ _ (by decide)
    · rw [show une3 c = [c] from by simp [une3, h1, h5],
          show esc1 c = [c] from by simp [esc1, h1]]
      exact replaceAllL_pass_tail '&' ['#', '3', '9', ';'] _ [c] t
        (by intro x hx; simp at hx; subst hx; exact h1)

theorem step_une5 (c : Char) (t : List Char) :
    replaceAllL "&amp;".data "&".data (esc1 c ++ t) =
      [c] ++ replaceAllL "&amp;".data "&".data t := by
  by_cases h1 : c = '&'
  · subst h1
    rw [show esc1 '&' = "&amp;".data from rfl]
    exact replaceAllL_match _ _ _ (by decide)
  · rw [show esc1 c = [c] from by simp [esc1, h1]]
    exact replaceAllL_pass_tail '&' ['a', 'm', 'p', ';'] _ [c] t
      (by intro x hx; simp at hx; subst hx; exact h1)

theorem escape_step1_eq (s : List Char) :
    replaceAllL "&".data "&amp;".data s = s.flatMap esc1 := by
  induction s with
  | nil => simp [replaceAllL_nil]
  | cons x xs ih =>
      have h := step_esc1 x xs
      simpa [ih, List.flatMap_cons] using h

theorem escapeHtml_data (s : String) : (escapeHtml s).data = s.data.flatMap esc5 := by
  show replaceAllL "\x27".data "&#39;".data (replaceAllL "\"".data "&quot;".data
    (replaceAllL ">".data "&gt;".data (replaceAllL "<".data "&lt;".data
      (replaceAllL "&".data "&amp;".data s.data)))) = s.data.flatMap esc5
  rw [escape_step1_eq, chain_step step_esc2, chain_step step_esc3,
      chain_step step_esc4, chain_step step_esc5]

/-- C10: for every string `s`, HTML-escaping with `escapeHtml` and then
applying the inverse unescaping (the five entities replaced back to their
characters, `&amp;` last) recovers `s` exactly, so an HTML export of a
summary/minutes pair recovers the original text after tag-stripping. -/
theorem escapeHtml_roundtrip (s : String) : unescapeHtml (escapeHtml s) = s := by
  show String.mk (replaceAllL "&amp;".data "&".data (replaceAllL "&#39;".data "\x27".data
    (replaceAllL "&quot;".data "\"".data (replaceAllL "&gt;".data ">".data
      (replaceAllL "&lt;".data "<".data (escapeHtml s).data))))) = s
  rw [escapeHtml_data, chain_step step_une1, chain_step step_une2,
      chain_step step_une3, chain_step step_une4, chain_step step_une5]
  show String.mk (s.data.flatMap (fun c => [c])) = s
  rw [show s.data.flatMap (fun c => [c]) = s.data from by simp]
